/-
Verification of the Streamly stream-monitoring core.

This file gives a shallow embedding, in Lean 4, of the algorithmic core of
the Streamly repository and proves properties of it:

* the quota circuit breaker (`src/core/api_backup_service.py`,
  class `APIBackupService`);
* the duplicate / rebroadcast detector (`src/core/duplicate_detection.py`,
  class `DuplicateDetectionService`);
* live-stream creation and the poll handler
  (`core/services.py`, `ChannelMonitorService`);
* the broadcast lifecycle state machine (`channels/models.py` together with
  the status writes in `core/services.py` and
  `core/management/commands/fix_download_status.py`);
* the download orchestrator, its retry schedule and its dispatch sequencing
  (`src/core/tasks.py`, `downloads/models.py`, `core/services.py`).

Times are modelled as integers counting seconds; database tables are lists
in query order; Django querysets become list filters.  Python strings are
Lean `String`s; the Unicode word-character class of `re` is modelled for
the scripts this program actually uses (ASCII and Hangul syllables).
-/

import Mathlib

namespace Streamly

/-- Timestamps in seconds (`django.utils.timezone.now()` values). -/
abbrev Time := Int

/-! ## Data model

`channels/models.py` (`LiveStream.STATUS_CHOICES`) and
`downloads/models.py` (`Download.STATUS_CHOICES`). -/

/-- `LiveStream.STATUS_CHOICES`: live, ended, downloading, completed, failed. -/
inductive StreamStatus where
  | live
  | ended
  | downloading
  | completed
  | failed
deriving DecidableEq, Repr

/-- `Download.STATUS_CHOICES`: pending, downloading, completed, failed, cancelled. -/
inductive DownloadStatus where
  | pending
  | downloading
  | completed
  | failed
  | cancelled
deriving DecidableEq, Repr

/-- A row of the `LiveStream` table (`channels/models.py`), restricted to the
fields the monitoring core reads or writes. -/
structure LiveStream where
  id : Nat
  channelId : Nat
  videoId : String
  title : String
  status : StreamStatus
  startedAt : Time
  endedAt : Option Time
deriving DecidableEq, Repr

/-- A row of the `Download` table (`downloads/models.py`), restricted to the
fields the orchestrator reads or writes.  The quality tier is kept as the raw
string the code stores (`create_download_tasks` writes `'low'` / `'high'`;
`Download.QUALITY_CHOICES` declares `'best'` / `'worst'`). -/
structure Download where
  id : Nat
  streamId : Nat
  quality : String
  status : DownloadStatus
  errorMessage : Option String
deriving DecidableEq, Repr

/-! ## Quota circuit breaker

`src/core/api_backup_service.py`, class `APIBackupService`.  The persisted
state is a failure counter, the timestamp of the last failure and an optional
blocked-until timestamp. -/

/-- The breaker's state (`failure_count`, `last_failure_time`, `blocked_until`). -/
structure Breaker where
  failureCount : Nat
  lastFailureTime : Option Time
  blockedUntil : Option Time
deriving DecidableEq, Repr

/-- `APIBackupService.MAX_FAILURES_BEFORE_BLOCK` = 5. -/
def maxFailuresBeforeBlock : Nat := 5

/-- `APIBackupService.BLOCK_DURATION_MINUTES` = 30, in seconds. -/
def blockDurationSeconds : Int := 30 * 60

/-- `APIBackupService.FAILURE_RESET_HOURS` = 6, in seconds. -/
def failureResetSeconds : Int := 6 * 3600

/-- `is_api_blocked`: lazily expires the block.  Returns the answer together
with the possibly updated state (the Python method clears `blocked_until`
once the block timestamp has passed). -/
def isApiBlocked (now : Time) (b : Breaker) : Bool × Breaker :=
  match b.blockedUntil with
  | none => (false, b)
  | some t => if now < t then (true, b) else (false, { b with blockedUntil := none })

/-- `should_use_backup`: blocked, or failure counter at least 3. -/
def shouldUseBackup (now : Time) (b : Breaker) : Bool × Breaker :=
  let p := isApiBlocked now b
  if p.1 then (true, p.2)
  else if 3 ≤ p.2.failureCount then (true, p.2)
  else (false, p.2)

/-- `record_api_success`: decrement the failure counter, floor zero. -/
def recordApiSuccess (b : Breaker) : Breaker :=
  if 0 < b.failureCount then { b with failureCount := b.failureCount - 1 } else b

/-- Substring test, `needle in hay` of Python. -/
def charsContain (hay needle : List Char) : Bool :=
  needle.isPrefixOf hay ||
    match hay with
    | [] => false
    | _ :: t => charsContain t needle

/-- Substring test on strings. -/
def strContains (hay needle : String) : Bool :=
  charsContain hay.data needle.data

/-- Python's `str.lower` (character-wise lower-casing, as in
`String.toLower`). -/
def strLower (s : String) : String :=
  String.mk (s.data.map Char.toLower)

/-- The quota test of `record_api_failure`:
`'quotaExceeded' in error_str or 'quota' in error_str.lower()`. -/
def isQuotaError (err : String) : Bool :=
  strContains err "quotaExceeded" || strContains (strLower err) "quota"

/-- `record_api_failure`.  A quota-exhaustion error forces the counter to the
threshold and a 24-hour block.  Otherwise the counter resets when more than
the reset window has elapsed since the last failure, then increments, and the
breaker blocks for 30 minutes when the counter reaches the threshold. -/
def recordApiFailure (now : Time) (err : String) (b : Breaker) : Breaker :=
  if isQuotaError err then
    { b with failureCount := maxFailuresBeforeBlock,
             blockedUntil := some (now + 24 * 3600) }
  else
    let count0 :=
      match b.lastFailureTime with
      | some t => if failureResetSeconds < now - t then 0 else b.failureCount
      | none => b.failureCount
    let count1 := count0 + 1
    { failureCount := count1,
      lastFailureTime := some now,
      blockedUntil :=
        if maxFailuresBeforeBlock ≤ count1 then some (now + blockDurationSeconds)
        else b.blockedUntil }

/-! ## Duplicate / rebroadcast detector

`src/core/duplicate_detection.py`, class `DuplicateDetectionService`.  The
`LiveStream` table is a list in query order; Django filters keep that order. -/

/-- Word characters of the normalisation regexes (`\w` plus `가-힣`): the
Unicode word class of Python's `re`, modelled for the scripts this program
uses — ASCII alphanumerics, underscore, and Hangul syllables. -/
def isWordCharKo (c : Char) : Bool :=
  c.isAlphanum || c = '_' || (0xAC00 ≤ c.toNat && c.toNat ≤ 0xD7A3)

/-- The stop-word set of `_normalize_title`. -/
def stopWords : List String :=
  ["live", "stream", "streaming", "라이브", "방송", "the", "a", "an", "and", "or"]

/-- Python's `str.split()` (and splitting at the separators a regex
substitution introduced): the maximal runs of non-separator characters. -/
def wordsByAux (p : Char → Bool) : List Char → List Char → List (List Char)
  | [], acc => if acc.isEmpty then [] else [acc.reverse]
  | c :: t, acc =>
    if p c then
      if acc.isEmpty then wordsByAux p t [] else acc.reverse :: wordsByAux p t []
    else wordsByAux p t (c :: acc)

/-- The words of a character list, separated by characters satisfying `p`. -/
def wordsBy (p : Char → Bool) (l : List Char) : List (List Char) :=
  wordsByAux p l []

/-- `_normalize_title` followed by the word split of
`_calculate_title_similarity`: lower-case, replace characters outside
`[\w\s가-힣]` by spaces, split on whitespace, drop stop words and words of
length ≤ 1. -/
def normalizeWords (title : String) : List String :=
  let lowered := title.data.map Char.toLower
  let replaced := lowered.map (fun c => if isWordCharKo c || c.isWhitespace then c else ' ')
  let ws := (wordsBy Char.isWhitespace replaced).map String.mk
  ws.filter (fun w => !stopWords.contains w && 1 < w.length)

/-- The normalised word set (`set(normalized.split())`). -/
def wordFinset (title : String) : Finset String :=
  (normalizeWords title).toFinset

/-- `_calculate_title_similarity`: Jaccard index over normalised word sets,
with 1.0 when both sets are empty and 0.0 when exactly one is. -/
def calculateTitleSimilarity (t1 t2 : String) : ℚ :=
  let w1 := wordFinset t1
  let w2 := wordFinset t2
  if w1 = ∅ ∧ w2 = ∅ then 1
  else if w1 = ∅ ∨ w2 = ∅ then 0
  else if (w1 ∪ w2).Nonempty then ((w1 ∩ w2).card : ℚ) / ((w1 ∪ w2).card : ℚ)
  else 0

/-- `TITLE_SIMILARITY_THRESHOLD` = 0.85. -/
def titleSimilarityThreshold : ℚ := 85 / 100

/-- The restream threshold of `_check_restream_pattern` = 0.7. -/
def restreamSimilarityThreshold : ℚ := 7 / 10

/-- `TIME_WINDOW_MINUTES` = 120, in seconds. -/
def timeWindowSeconds : Int := 120 * 60

/-- The 7-day window of `_check_restream_pattern`, in seconds. -/
def restreamWindowSeconds : Int := 7 * 86400

/-- Case-insensitive (ASCII folding) literal match at the head of a suffix. -/
def ciMatch : List Char → List Char → Bool
  | [], _ => true
  | _ :: _, [] => false
  | p :: ps, c :: cs => p.toLower == c.toLower && ciMatch ps cs

/-- The shapes of regex patterns appearing in `_clean_restream_title`:
a case-insensitive literal, a literal pair separated by `\s?`, and
`open .* needle .* close` (where `.` does not cross a newline). -/
inductive RePat where
  | lit (s : String)
  | litOptSpace (a b : String)
  | bracket (openc : Char) (needle : String) (closec : Char)
deriving Repr

/-- Greedy match length of the `open .* needle .* close` pattern at the head
of `l`: the match extends to the last possible closing character on the
current line. -/
def bracketMatchLen (o : Char) (needle : List Char) (c : Char) (l : List Char) : Option Nat :=
  match l with
  | [] => none
  | h :: _ =>
    if h ≠ o then none
    else
      let stop := ((l.findIdx? (fun x => x = '\n')).getD l.length)
      let ks := (List.range stop).filter
        (fun k => decide (1 ≤ k) && ciMatch needle (l.drop k))
      let ms := (List.range stop).filter
        (fun m => (l.get? m == some c) && ks.any (fun k => decide (k + needle.length ≤ m)))
      match ms.getLast? with
      | some m => some (m + 1)
      | none => none

/-- Match length of one pattern at the head of a suffix (`\s?` is greedy). -/
def rePatMatchLen : RePat → List Char → Option Nat
  | .lit s, l => if ciMatch s.data l then some s.data.length else none
  | .litOptSpace a b, l =>
    if ciMatch a.data l then
      let rest := l.drop a.data.length
      match rest with
      | c :: t =>
        if c.isWhitespace && ciMatch b.data t then
          some (a.data.length + 1 + b.data.length)
        else if ciMatch b.data rest then some (a.data.length + b.data.length)
        else none
      | [] => if ciMatch b.data rest then some (a.data.length + b.data.length) else none
    else none
  | .bracket o needle c, l => bracketMatchLen o needle.data c l

/-- `re.sub(pattern, '', s)`: scan left to right, delete each non-overlapping
match, resume after it.  The fuel argument (instantiated with the length of
the text, an upper bound on the number of scan steps) makes the recursion
structural. -/
def rePatSubAux (p : RePat) : Nat → List Char → List Char
  | _, [] => []
  | 0, l => l
  | fuel + 1, c :: t =>
    match rePatMatchLen p (c :: t) with
    | some n =>
      if n = 0 then c :: rePatSubAux p fuel t
      else rePatSubAux p fuel ((c :: t).drop n)
    | none => c :: rePatSubAux p fuel t

/-- `re.sub(pattern, '', s)` on a character list. -/
def rePatSub (p : RePat) (l : List Char) : List Char :=
  rePatSubAux p l.length l

/-- The `restream_patterns` list of `_clean_restream_title`, in source order. -/
def restreamPatterns : List RePat :=
  [ .litOptSpace "다시" "보기",
    .lit "재방송", .lit "replay", .lit "rerun", .lit "재송",
    .lit "encore", .lit "앙코르", .lit "리플레이", .lit "restream",
    .bracket '[' "재방송" ']',
    .bracket '(' "다시보기" ')',
    .lit "#재방송",
    .lit "재업로드", .lit "reupload" ]

/-- `re.sub(r'\s+', ' ', s).strip()`. -/
def collapseSpaces (s : String) : String :=
  String.mk (List.intercalate [' '] (wordsBy Char.isWhitespace s.data))

/-- `re.sub(r'^[^\w가-힣]*|[^\w가-힣]*$', '', s)`. -/
def trimNonWord (s : String) : String :=
  String.mk (((s.data.dropWhile (fun c => !isWordCharKo c)).reverse.dropWhile
    (fun c => !isWordCharKo c)).reverse)

/-- `_clean_restream_title`: strip the rebroadcast keyword patterns, tidy
whitespace and boundary punctuation, and fall back to the original title if
nothing is left. -/
def cleanRestreamTitle (title : String) : String :=
  let cleaned := restreamPatterns.foldl (fun s p => String.mk (rePatSub p s.data)) title
  let stripped := trimNonWord (collapseSpaces cleaned)
  if stripped = "" then title else stripped

/-- The `restream_keywords` list of `_check_restream_pattern`. -/
def restreamKeywords : List String :=
  ["다시보기", "재방송", "replay", "rerun", "재송", "encore", "앙코르", "리플레이", "restream"]

/-- `any(keyword in title_lower for keyword in restream_keywords)`. -/
def hasRestreamKeyword (title : String) : Bool :=
  restreamKeywords.any (fun k => strContains (strLower title) k)

/-- Result record of `check_stream_duplicate` (duplicate type kept as the raw
string the code uses). -/
structure DupResult where
  isDuplicate : Bool
  dupType : Option String
  existing : Option LiveStream
  confidence : ℚ
deriving DecidableEq, Repr

/-- The initial (not-a-duplicate) result of `check_stream_duplicate`. -/
def noDup : DupResult := ⟨false, none, none, 0⟩

/-- `_check_exact_video_id_match`: `LiveStream.objects.filter(video_id=...).first()`. -/
def checkExactVideoIdMatch (db : List LiveStream) (videoId : String) : Option LiveStream :=
  db.find? (fun s => s.videoId == videoId)

/-- The candidate queryset of `_check_title_duplicate`: same channel, started
within the last 120 minutes. -/
def titleWindowCandidates (now : Time) (db : List LiveStream) (chan : Nat) : List LiveStream :=
  db.filter (fun s => s.channelId == chan && decide (now - timeWindowSeconds ≤ s.startedAt))

/-- The for-loops of `_check_title_duplicate` and `_check_restream_pattern`,
which share one shape: walk the candidates in query order and break at the
first one whose score reaches the threshold, returning it with its score. -/
def findFirstScored (score : LiveStream → ℚ) (th : ℚ) : List LiveStream → Option (LiveStream × ℚ)
  | [] => none
  | s :: rest =>
    let sim := score s
    if th ≤ sim then some (s, sim) else findFirstScored score th rest

/-- The loop of `_check_title_duplicate`: first candidate in query order whose
similarity reaches the threshold, with that similarity. -/
def findFirstSimilar (title : String) (l : List LiveStream) : Option (LiveStream × ℚ) :=
  findFirstScored (fun s => calculateTitleSimilarity title s.title) titleSimilarityThreshold l

/-- `_check_title_duplicate`. -/
def checkTitleDuplicate (now : Time) (db : List LiveStream) (chan : Nat) (title : String) :
    Option (LiveStream × ℚ) :=
  findFirstSimilar title (titleWindowCandidates now db chan)

/-- The candidate queryset of `_check_restream_pattern`: same channel, started
within the last 7 days, status completed or ended. -/
def restreamCandidates (now : Time) (db : List LiveStream) (chan : Nat) : List LiveStream :=
  db.filter (fun s =>
    s.channelId == chan && decide (now - restreamWindowSeconds ≤ s.startedAt) &&
      (s.status == .completed || s.status == .ended))

/-- The loop of `_check_restream_pattern`: both titles are keyword-stripped
before the Jaccard comparison against the lower threshold; first match wins. -/
def findFirstRestream (cleanedTitle : String) (l : List LiveStream) : Option (LiveStream × ℚ) :=
  findFirstScored (fun s => calculateTitleSimilarity cleanedTitle (cleanRestreamTitle s.title))
    restreamSimilarityThreshold l

/-- `_check_restream_pattern`. -/
def checkRestreamPattern (now : Time) (db : List LiveStream) (chan : Nat) (title : String) :
    Option (LiveStream × ℚ) :=
  if hasRestreamKeyword title then
    findFirstRestream (cleanRestreamTitle title) (restreamCandidates now db chan)
  else none

/-- `check_stream_duplicate`: exact video-id match first, then title
similarity, then the restream pattern, else not a duplicate. -/
def checkStreamDuplicate (now : Time) (db : List LiveStream) (chan : Nat)
    (videoId title : String) : DupResult :=
  match checkExactVideoIdMatch db videoId with
  | some s => ⟨true, some "exact", some s, 1⟩
  | none =>
    match checkTitleDuplicate now db chan title with
    | some (s, sim) => ⟨true, some "similar", some s, sim⟩
    | none =>
      match checkRestreamPattern now db chan title with
      | some (s, sim) => ⟨true, some "restream", some s, sim⟩
      | none => noDup

/-- `ChannelMonitorService.create_live_stream` (`core/services.py`): run the
duplicate check; on a duplicate return the existing stream and leave the table
unchanged, otherwise insert a new row in status `live`. -/
def createLiveStream (now : Time) (db : List LiveStream) (chan : Nat) (newId : Nat)
    (videoId title : String) : Option LiveStream × List LiveStream :=
  let dup := checkStreamDuplicate now db chan videoId title
  if dup.isDuplicate then (dup.existing, db)
  else
    let s : LiveStream :=
      { id := newId, channelId := chan, videoId := videoId, title := title,
        status := .live, startedAt := now, endedAt := none }
    (some s, db ++ [s])

/-! ## Poll handler and lifecycle

`core/services.py` `ChannelMonitorService.check_channel_streams`,
`channels/models.py` `LiveStream.mark_as_ended`,
`core/services.py` `StreamEndHandler.process_ended_streams`, and
`src/core/management/commands/fix_download_status.py`
`Command.fix_stuck_streams`. -/

/-- `LiveStream.mark_as_ended`: set status `ended` and `ended_at` to now. -/
def markAsEnded (now : Time) (s : LiveStream) : LiveStream :=
  { s with status := .ended, endedAt := some now }

/-- The end-detection part of `check_channel_streams`, per stream: a stream in
status `live` whose video id is absent from the channel's current live set is
marked as ended; every other stream is left unchanged. -/
def pollUpdateStream (now : Time) (currentLiveIds : List String) (s : LiveStream) : LiveStream :=
  if s.status = .live && !currentLiveIds.contains s.videoId then markAsEnded now s else s

/-- The end-detection part of `check_channel_streams` over the whole table. -/
def pollEndDetection (now : Time) (currentLiveIds : List String) (db : List LiveStream) :
    List LiveStream :=
  db.map (pollUpdateStream now currentLiveIds)

/-- The status transitions performed by the four monitoring-core operations,
as a relation `old status → new status`:

* `pollEnd` — `check_channel_streams` (`core/services.py`) filters streams in
  status `live` and calls `mark_as_ended` on those absent from the live set;
* `orchestrate` — `StreamEndHandler.process_ended_streams`
  (`core/services.py`) filters status `ended` and, once at least one download
  job was created, sets status `downloading` (the per-stream task
  `process_ended_stream` in `src/core/tasks.py` performs the same write for a
  stream that has just been marked ended);
* `reconcileComplete` / `reconcileEnd` — `Command.fix_stuck_streams`
  (`fix_download_status.py`) filters status `downloading` with no pending or
  downloading job and sets `completed` when a completed job exists, `ended`
  otherwise. -/
inductive StreamStep : StreamStatus → StreamStatus → Prop where
  | pollEnd : StreamStep .live .ended
  | orchestrate : StreamStep .ended .downloading
  | reconcileComplete : StreamStep .downloading .completed
  | reconcileEnd : StreamStep .downloading .ended

/-- Chronological status histories of one Broadcast: created in status `live`
by `create_live_stream`, then stepped by the monitoring-core operations. -/
inductive StatusTrace : List StreamStatus → Prop where
  | init : StatusTrace [.live]
  | snoc {l : List StreamStatus} {s s' : StreamStatus} :
      StatusTrace l → StreamStep s s' → l.getLast? = some s → StatusTrace (l ++ [s'])

/-! ## Download orchestrator

`core/services.py` `StreamEndHandler.create_download_tasks`,
`src/core/tasks.py` `download_video` and `process_pending_downloads`,
`downloads/models.py` `Download.fail_download`. -/

/-- `DuplicateDetectionService.check_download_duplicate`: a duplicate exists
when some download row has this stream and quality. -/
def checkDownloadDuplicate (downloads : List Download) (streamId : Nat) (quality : String) :
    Bool :=
  downloads.any (fun d => d.streamId == streamId && d.quality == quality)

/-- `StreamEndHandler.create_download_tasks`: for each tier, run the duplicate
check and create a `pending` job only if absent.  The low tier is created with
quality string `'low'` and the high tier with `'high'`.  Returns the new table
and the created count. -/
def createDownloadTasks (downloads : List Download) (streamId : Nat) (lowId highId : Nat) :
    List Download × Nat :=
  let step1 :=
    if checkDownloadDuplicate downloads streamId "low" then (downloads, 0)
    else (downloads ++ [⟨lowId, streamId, "low", .pending, none⟩], 1)
  let step2 :=
    if checkDownloadDuplicate step1.1 streamId "high" then (step1.1, step1.2)
    else (step1.1 ++ [⟨highId, streamId, "high", .pending, none⟩], step1.2 + 1)
  step2

/-- The low-tier format chain of `download_video` (`src/core/tasks.py`),
chosen when `download.quality == 'worst'`. -/
def lowFormatChain : String :=
  "18/best[height<=480]/best[height<=720]/worst/best"

/-- The high-tier format chain of `download_video` (`src/core/tasks.py`),
chosen for every other quality value. -/
def highFormatChain : String :=
  "bestvideo[height<=2160][ext=mp4]+bestaudio[ext=m4a]/bestvideo[height<=2160]+bestaudio/" ++
  "bestvideo[height<=1440][ext=mp4]+bestaudio[ext=m4a]/bestvideo[height<=1440]+bestaudio/" ++
  "bestvideo[height<=1080][ext=mp4]+bestaudio[ext=m4a]/bestvideo[height<=1080]+bestaudio/" ++
  "bestvideo[height<=720][ext=mp4]+bestaudio[ext=m4a]/bestvideo[height<=720]+bestaudio/" ++
  "bestvideo[ext=mp4]+bestaudio[ext=m4a]/bestvideo+bestaudio/best[ext=mp4]/best"

/-- The format selection of `download_video`:
`if download.quality == 'worst'` use the low chain, else the high chain. -/
def selectFormat (quality : String) : String :=
  if quality == "worst" then lowFormatChain else highFormatChain

/-- `Download.fail_download`: set status `failed`; overwrite the error message
only when the given one is truthy (non-empty). -/
def failDownload (errorMessage : Option String) (d : Download) : Download :=
  { d with status := .failed,
           errorMessage :=
             match errorMessage with
             | some m => if m = "" then d.errorMessage else some m
             | none => d.errorMessage }

/-- `download_video`'s retry schedule (`retry_delays = [120, 300, 600]`). -/
def retryDelays : List Nat := [120, 300, 600]

/-- `download_video`'s max retries (`max_retries=3`). -/
def downloadMaxRetries : Nat := 3

/-- The rescheduling decision at the end of a failed `download_video` run,
given the number of retries already performed: below the limit, retry after
`retry_delays[min(retries, 2)]` seconds; otherwise give up. -/
def retrySchedule (retries : Nat) : Option Nat :=
  if retries < downloadMaxRetries then some (retryDelays.getD (min retries (retryDelays.length - 1)) 0)
  else none

/-- The post-completion chain of `download_video`: when a job of quality
`'low'` or `'worst'` completes, dispatch the first pending job of quality
`'high'` or `'best'` for the same stream. -/
def completionChainTarget (downloads : List Download) (d : Download) : Option Nat :=
  if d.quality == "low" || d.quality == "worst" then
    (downloads.find? (fun h =>
      h.streamId == d.streamId && (h.quality == "high" || h.quality == "best") &&
        h.status == .pending)).map (fun h => h.id)
  else none

/-- The per-job dispatch decision of `process_pending_downloads`
(`src/core/tasks.py`), for one pending job `d` against the download table:
a `'low'` job is dispatched unless a `'high'` job of the same stream is
currently downloading; a `'high'` job is dispatched only when the stream has
no `'low'` job or its `'low'` job is completed or failed. -/
def pendingDispatchDecision (downloads : List Download) (d : Download) : Bool :=
  if d.quality == "low" then
    !(downloads.any (fun h =>
      h.streamId == d.streamId && h.quality == "high" && h.status == .downloading))
  else if d.quality == "high" then
    match downloads.find? (fun l => l.streamId == d.streamId && l.quality == "low") with
    | none => true
    | some l => l.status == .completed || l.status == .failed
  else false

/-- `process_pending_downloads`: iterate the pending jobs in query order and
collect the ids dispatched to `download_video`. -/
def processPendingDownloads (downloads : List Download) : List Nat :=
  ((downloads.filter (fun d => d.status == .pending)).filter
    (pendingDispatchDecision downloads)).map (fun d => d.id)

/-! ## Theorems -/

/-- Claim C4: for non-quota failures the breaker's counter increments, except
that when more than 6 hours elapsed since the previous failure it resets to
zero before incrementing; when the counter reaches 5 the breaker blocks the
primary source for 30 minutes (and otherwise the block timestamp is
untouched); a success decrements the counter by at most 1 and never below
zero; and `should_use_backup` returns true exactly when the breaker is
currently blocked or the counter is at least 3. -/
theorem breaker_counter_evolution (b : Breaker) (now : Time) (err : String)
    (hq : isQuotaError err = false) :
    ((∀ t, b.lastFailureTime = some t → failureResetSeconds < now - t →
        (recordApiFailure now err b).failureCount = 1) ∧
     (∀ t, b.lastFailureTime = some t → now - t ≤ failureResetSeconds →
        (recordApiFailure now err b).failureCount = b.failureCount + 1) ∧
     (b.lastFailureTime = none →
        (recordApiFailure now err b).failureCount = b.failureCount + 1)) ∧
    (maxFailuresBeforeBlock ≤ (recordApiFailure now err b).failureCount →
        (recordApiFailure now err b).blockedUntil = some (now + blockDurationSeconds)) ∧
    ((recordApiFailure now err b).failureCount < maxFailuresBeforeBlock →
        (recordApiFailure now err b).blockedUntil = b.blockedUntil) ∧
    ((recordApiSuccess b).failureCount ≤ b.failureCount ∧
      b.failureCount - (recordApiSuccess b).failureCount ≤ 1) ∧
    (shouldUseBackup now b).1 = ((isApiBlocked now b).1 || decide (3 ≤ b.failureCount)) := by
  have hbu : ∀ t : Time, (isApiBlocked now b).2.failureCount = b.failureCount := by
    intro _t
    unfold isApiBlocked
    cases b.blockedUntil <;> simp
    split <;> rfl
  refine ⟨⟨?_, ?_, ?_⟩, ?_, ?_, ?_, ?_⟩
  · intro t ht hgt
    simp only [recordApiFailure, hq, Bool.false_eq_true, if_false, ht]
    simp [hgt]
  · intro t ht hle
    simp only [recordApiFailure, hq, Bool.false_eq_true, if_false, ht]
    have : ¬ failureResetSeconds < now - t := not_lt.mpr hle
    simp [this]
  · intro ht
    simp only [recordApiFailure, hq, Bool.false_eq_true, if_false, ht]
  · intro hge
    simp only [recordApiFailure, hq, Bool.false_eq_true, if_false] at hge ⊢
    cases hbt : b.lastFailureTime <;> simp only [hbt] at hge ⊢
    · simp only [if_pos hge]
    · rename_i t
      by_cases hr : failureResetSeconds < now - t <;>
        simp only [hr, if_true, if_false, reduceIte] at hge ⊢ <;> simp [hge]
  · intro hlt
    simp only [recordApiFailure, hq, Bool.false_eq_true, if_false] at hlt ⊢
    cases hbt : b.lastFailureTime <;> simp only [hbt] at hlt ⊢
    · simp only [if_neg (not_le.mpr hlt)]
    · rename_i t
      by_cases hr : failureResetSeconds < now - t <;>
        · simp only [hr, if_true, if_false, reduceIte] at hlt ⊢
          simp [not_le.mpr hlt]
  · unfold recordApiSuccess
    split
    · dsimp only
      exact ⟨by omega, by omega⟩
    · exact ⟨le_refl _, by omega⟩
  · unfold shouldUseBackup
    cases hblk : (isApiBlocked now b).1 <;> simp [hblk, hbu 0]
    split <;> simp_all

/-- Witness for C4 at a concrete state: one failure 7 hours after the last
one resets the counter; success decrements; `should_use_backup` matches. -/
theorem breaker_counter_evolution_witness :
    (recordApiFailure 25200 "HTTP 500" ⟨4, some 0, none⟩).failureCount = 1 ∧
    (recordApiSuccess ⟨4, some 0, none⟩).failureCount ≤ 4 ∧
    (shouldUseBackup 25200 ⟨4, some 0, none⟩).1 =
      ((isApiBlocked 25200 ⟨4, some 0, none⟩).1 || decide (3 ≤ (4 : Nat))) := by
  have h := breaker_counter_evolution ⟨4, some 0, none⟩ 25200 "HTTP 500" (by decide)
  exact ⟨h.1.1 0 rfl (by decide), h.2.2.2.1.1, h.2.2.2.2⟩

/-- Claim C5: a single quota-exhaustion failure immediately blocks the breaker
for 24 hours from any prior state, bypassing the counter threshold (the
counter is forced to the threshold value); and block expiry is lazy — once the
blocked-until timestamp has passed, `is_api_blocked` returns false and clears
the blocked state, with no further recorded successes or failures needed. -/
theorem quota_block_and_lazy_expiry :
    (∀ (b : Breaker) (now : Time) (err : String), isQuotaError err = true →
        (recordApiFailure now err b).blockedUntil = some (now + 24 * 3600) ∧
        (recordApiFailure now err b).failureCount = maxFailuresBeforeBlock) ∧
    (∀ (b : Breaker) (now t : Time), b.blockedUntil = some t → t ≤ now →
        isApiBlocked now b = (false, { b with blockedUntil := none })) := by
  constructor
  · intro b now err hq
    simp [recordApiFailure, hq]
  · intro b now t hbt hle
    simp [isApiBlocked, hbt, not_lt.mpr hle]

/-- Witness for C5: a quota error at counter 2 blocks until 24 hours later,
and reading the breaker after the block has passed clears it. -/
theorem quota_block_and_lazy_expiry_witness :
    (recordApiFailure 100 "quotaExceeded" ⟨2, some 0, none⟩).blockedUntil =
      some (100 + 24 * 3600) ∧
    isApiBlocked 200 ⟨0, none, some 150⟩ = (false, ⟨0, none, none⟩) :=
  ⟨(quota_block_and_lazy_expiry.1 ⟨2, some 0, none⟩ 100 "quotaExceeded" (by decide)).1,
   quota_block_and_lazy_expiry.2 ⟨0, none, some 150⟩ 200 150 rfl (by decide)⟩

/-- Helper: a scored first-match search returns the candidate after a block of
candidates below the threshold. -/
theorem findFirstScored_append (score : LiveStream → ℚ) (th : ℚ) (pre post : List LiveStream)
    (s : LiveStream) (hpre : ∀ c ∈ pre, score c < th) (hs : th ≤ score s) :
    findFirstScored score th (pre ++ s :: post) = some (s, score s) := by
  induction pre with
  | nil => simp [findFirstScored, hs]
  | cons c rest ih =>
    have hc : score c < th := hpre c (by simp)
    simp only [List.cons_append, findFirstScored, if_neg (not_le.mpr hc)]
    exact ih fun x hx => hpre x (by simp [hx])

/-- Helper: a scored first-match search fails when every candidate is below
the threshold. -/
theorem findFirstScored_none (score : LiveStream → ℚ) (th : ℚ) (l : List LiveStream)
    (h : ∀ c ∈ l, score c < th) :
    findFirstScored score th l = none := by
  induction l with
  | nil => rfl
  | cons c rest ih =>
    have hc : score c < th := h c (by simp)
    simp only [findFirstScored, if_neg (not_le.mpr hc)]
    exact ih fun x hx => h x (by simp [hx])

/-- Helper: folding failure marking over a non-empty error list leaves the job
failed and carrying the last (non-empty) error message. -/
theorem failDownload_foldl (errs : List String) (d : Download) (hne : errs ≠ [])
    (hmsg : ∀ e ∈ errs, e ≠ "") :
    (errs.foldl (fun acc e => failDownload (some e) acc) d).status = .failed ∧
    (errs.foldl (fun acc e => failDownload (some e) acc) d).errorMessage =
      some (errs.getLast hne) := by
  induction errs generalizing d with
  | nil => exact absurd rfl hne
  | cons e rest ih =>
    cases rest with
    | nil =>
      have he : e ≠ "" := hmsg e (by simp)
      simp [failDownload, he]
    | cons e2 t =>
      have hstep :
          (e :: e2 :: t).foldl (fun acc e => failDownload (some e) acc) d =
            (e2 :: t).foldl (fun acc e => failDownload (some e) acc) (failDownload (some e) d) := by
        simp [List.foldl_cons]
      rw [hstep]
      have hres := ih (failDownload (some e) d) (by simp)
        (fun x hx => hmsg x (by simp [hx]))
      refine ⟨hres.1, ?_⟩
      rw [hres.2]
      simp [List.getLast]

/-- Claim C6: a failing download job with fewer than 3 performed retries is
rescheduled after exactly 120, 300, 600 seconds before retries 1, 2, 3
respectively (a fixed escalating schedule); once the 3 retries are exhausted
no further retry is scheduled by this path, and the job stays in status
`failed` carrying the last error message. -/
theorem download_retry_schedule (d : Download) (errs : List String) (hne : errs ≠ [])
    (hmsg : ∀ e ∈ errs, e ≠ "") :
    retrySchedule 0 = some 120 ∧ retrySchedule 1 = some 300 ∧ retrySchedule 2 = some 600 ∧
    (∀ n, downloadMaxRetries ≤ n → retrySchedule n = none) ∧
    (errs.foldl (fun acc e => failDownload (some e) acc) d).status = .failed ∧
    (errs.foldl (fun acc e => failDownload (some e) acc) d).errorMessage =
      some (errs.getLast hne) := by
  have hfold := failDownload_foldl errs d hne hmsg
  refine ⟨rfl, rfl, rfl, ?_, hfold.1, hfold.2⟩
  intro n hn
  simp [retrySchedule, Nat.not_lt.mpr hn]

/-- Witness for C6: a job failing on the initial run and all three retries
keeps the last error message and is never rescheduled again. -/
theorem download_retry_schedule_witness :
    retrySchedule 0 = some 120 ∧
    (["e1", "e2", "e3", "e4"].foldl (fun acc e => failDownload (some e) acc)
        ⟨7, 3, "low", .pending, none⟩).status = .failed ∧
    (["e1", "e2", "e3", "e4"].foldl (fun acc e => failDownload (some e) acc)
        ⟨7, 3, "low", .pending, none⟩).errorMessage = some "e4" ∧
    retrySchedule 3 = none := by
  have h := download_retry_schedule ⟨7, 3, "low", .pending, none⟩ ["e1", "e2", "e3", "e4"]
    (by decide) (by decide)
  exact ⟨h.1, h.2.2.2.2.1, h.2.2.2.2.2, h.2.2.2.1 3 (by decide)⟩

/-- Claim C9 (code bug in `src/core/tasks.py` `download_video`): the
orchestrator creates the low-tier job with quality string `'low'`, but the
format selection gives the small/low-resolution chain only to quality
`'worst'` and hands every other quality — including `'low'` — the
high-resolution chain.  So the low-tier job is invoked with the high-tier
format selector, contrary to the claim (and to the sibling implementation in
`core/tasks.py`, which branches on `'low'`). -/
theorem low_tier_job_gets_high_format_chain :
    (createDownloadTasks [] 1 10 11).1 =
      [⟨10, 1, "low", .pending, none⟩, ⟨11, 1, "high", .pending, none⟩] ∧
    selectFormat "low" = highFormatChain ∧
    selectFormat "high" = highFormatChain ∧
    selectFormat "worst" = lowFormatChain ∧
    lowFormatChain ≠ highFormatChain := by
  exact ⟨rfl, rfl, rfl, rfl, by decide⟩

/-- Claim C8: on a poll, a stream in status `live` that is absent from the
channel's current live set is marked ended with `ended_at` set to now, and a
live stream still present keeps its row unchanged (in particular stays
`live`); the updated row is what the poll handler stores. -/
theorem poll_marks_absent_live_streams_ended (now : Time) (cur : List String)
    (db : List LiveStream) (s : LiveStream) (hs : s ∈ db) (hlive : s.status = .live) :
    (s.videoId ∉ cur →
        (pollUpdateStream now cur s).status = .ended ∧
        (pollUpdateStream now cur s).endedAt = some now) ∧
    (s.videoId ∈ cur → pollUpdateStream now cur s = s) ∧
    pollUpdateStream now cur s ∈ pollEndDetection now cur db := by
  refine ⟨?_, ?_, List.mem_map_of_mem _ hs⟩
  · intro hnot
    simp [pollUpdateStream, hlive, hnot, markAsEnded]
  · intro hin
    simp [pollUpdateStream, hin]

/-- Witness for C8: one live stream absent from the poll result ends; one
still present stays. -/
theorem poll_marks_absent_live_streams_ended_witness :
    (pollUpdateStream 50 ["v2"] ⟨1, 1, "v1", "t", .live, 0, none⟩).status = .ended ∧
    (pollUpdateStream 50 ["v2"] ⟨1, 1, "v1", "t", .live, 0, none⟩).endedAt = some 50 ∧
    pollUpdateStream 50 ["v2"] ⟨2, 1, "v2", "t", .live, 0, none⟩ =
      ⟨2, 1, "v2", "t", .live, 0, none⟩ := by
  have h1 := poll_marks_absent_live_streams_ended 50 ["v2"]
    [⟨1, 1, "v1", "t", .live, 0, none⟩] ⟨1, 1, "v1", "t", .live, 0, none⟩ (by simp) rfl
  have h2 := poll_marks_absent_live_streams_ended 50 ["v2"]
    [⟨2, 1, "v2", "t", .live, 0, none⟩] ⟨2, 1, "v2", "t", .live, 0, none⟩ (by simp) rfl
  exact ⟨(h1.1 (by decide)).1, (h1.1 (by decide)).2, h2.2.1 (by decide)⟩

/-- Claim C10: when both titles normalise to an empty word set the similarity
is 1.0; when exactly one does it is 0.0; and a candidate pair with empty word
sets on the same channel inside the 120-minute window (with no exact video-id
match, the empty-set candidate being first in query order) is classified
`similar` with confidence 1.0. -/
theorem empty_wordset_similarity :
    (∀ t1 t2 : String, normalizeWords t1 = [] → normalizeWords t2 = [] →
        calculateTitleSimilarity t1 t2 = 1) ∧
    (∀ t1 t2 : String, normalizeWords t1 = [] → normalizeWords t2 ≠ [] →
        calculateTitleSimilarity t1 t2 = 0) ∧
    (∀ t1 t2 : String, normalizeWords t1 ≠ [] → normalizeWords t2 = [] →
        calculateTitleSimilarity t1 t2 = 0) ∧
    (∀ (now : Time) (db : List LiveStream) (chan : Nat) (videoId title : String)
        (s : LiveStream) (rest : List LiveStream),
        checkExactVideoIdMatch db videoId = none →
        titleWindowCandidates now db chan = s :: rest →
        normalizeWords title = [] → normalizeWords s.title = [] →
        checkStreamDuplicate now db chan videoId title =
          ⟨true, some "similar", some s, 1⟩) := by
  have hboth : ∀ t1 t2 : String, normalizeWords t1 = [] → normalizeWords t2 = [] →
      calculateTitleSimilarity t1 t2 = 1 := by
    intro t1 t2 h1 h2
    simp [calculateTitleSimilarity, wordFinset, h1, h2]
  refine ⟨hboth, ?_, ?_, ?_⟩
  · intro t1 t2 h1 h2
    have h2' : wordFinset t2 ≠ ∅ := by
      simp [wordFinset, List.toFinset_eq_empty_iff, h2]
    simp [calculateTitleSimilarity, wordFinset, h1]
    simp [wordFinset] at h2'
    simp [h2']
  · intro t1 t2 h1 h2
    have h1' : wordFinset t1 ≠ ∅ := by
      simp [wordFinset, List.toFinset_eq_empty_iff, h1]
    simp [calculateTitleSimilarity, wordFinset, h2]
    simp [wordFinset] at h1'
    simp [h1']
  · intro now db chan videoId title s rest hexact hcand h1 h2
    have hsim : calculateTitleSimilarity title s.title = 1 := hboth _ _ h1 h2
    have hth : titleSimilarityThreshold ≤ calculateTitleSimilarity title s.title := by
      rw [hsim]; norm_num [titleSimilarityThreshold]
    have hfirst : findFirstSimilar title (s :: rest) = some (s, 1) := by
      have happ := findFirstScored_append (fun c => calculateTitleSimilarity title c.title)
        titleSimilarityThreshold [] rest s (by simp) hth
      unfold findFirstSimilar
      simpa [hsim] using happ
    simp [checkStreamDuplicate, hexact, checkTitleDuplicate, hcand, hfirst]

/-- Witness for C10: two all-punctuation titles on the same channel within
the window are classified `similar` with confidence 1.0. -/
theorem empty_wordset_similarity_witness :
    calculateTitleSimilarity "!!!" ". ? ." = 1 ∧
    calculateTitleSimilarity "!!!" "hello world" = 0 ∧
    checkStreamDuplicate 60 [⟨1, 1, "v1", "...", .live, 0, none⟩] 1 "v2" "!!!" =
      ⟨true, some "similar", some ⟨1, 1, "v1", "...", .live, 0, none⟩, 1⟩ := by
  refine ⟨empty_wordset_similarity.1 "!!!" ". ? ." (by decide) (by decide),
    empty_wordset_similarity.2.1 "!!!" "hello world" (by decide) (by decide),
    empty_wordset_similarity.2.2.2 60 [⟨1, 1, "v1", "...", .live, 0, none⟩] 1 "v2" "!!!"
      ⟨1, 1, "v1", "...", .live, 0, none⟩ [] (by decide) (by decide) (by decide) (by decide)⟩

/-- Helper: if the duplicate check does not flag a duplicate, no stream with
the observed video id is in the table. -/
theorem not_duplicate_no_exact (now : Time) (db : List LiveStream) (chan : Nat)
    (videoId title : String)
    (h : (checkStreamDuplicate now db chan videoId title).isDuplicate = false) :
    ∀ e ∈ db, e.videoId ≠ videoId := by
  intro e he hev
  have hsome : (db.find? (fun s => s.videoId == videoId)).isSome :=
    List.find?_isSome.mpr ⟨e, he, by simp [hev]⟩
  obtain ⟨e1, he1⟩ := Option.isSome_iff_exists.mp hsome
  simp [checkStreamDuplicate, checkExactVideoIdMatch, he1] at h

/-- Claim C1: when a candidate's video id already has a Broadcast, creation
returns an existing Broadcast with that video id and inserts no row; and
creation preserves the at-most-one-Broadcast-per-video-id invariant. -/
theorem broadcast_creation_idempotent (now : Time) (db : List LiveStream)
    (chan newId : Nat) (videoId title : String) :
    ((∃ e ∈ db, e.videoId = videoId) →
        (createLiveStream now db chan newId videoId title).2 = db ∧
        ∃ e, (createLiveStream now db chan newId videoId title).1 = some e ∧
          e ∈ db ∧ e.videoId = videoId) ∧
    (∀ w : String,
        db.countP (fun s => s.videoId == w) ≤ 1 →
        (createLiveStream now db chan newId videoId title).2.countP
          (fun s => s.videoId == w) ≤ 1) := by
  constructor
  · rintro ⟨e, he, hev⟩
    have hsome : (db.find? (fun s => s.videoId == videoId)).isSome :=
      List.find?_isSome.mpr ⟨e, he, by simp [hev]⟩
    obtain ⟨e1, he1⟩ := Option.isSome_iff_exists.mp hsome
    have hmem : e1 ∈ db := List.mem_of_find?_eq_some he1
    have hid : e1.videoId = videoId := by
      have := List.find?_some he1
      simpa using this
    refine ⟨?_, e1, ?_, hmem, hid⟩ <;>
      simp [createLiveStream, checkStreamDuplicate, checkExactVideoIdMatch, he1]
  · intro w hcount
    by_cases hdup : (checkStreamDuplicate now db chan videoId title).isDuplicate
    · simpa [createLiveStream, hdup] using hcount
    · have hnone : ∀ e ∈ db, e.videoId ≠ videoId :=
        not_duplicate_no_exact now db chan videoId title (by simpa using hdup)
      have h2 : (createLiveStream now db chan newId videoId title).2 =
          db ++ [{ id := newId, channelId := chan, videoId := videoId, title := title,
                   status := .live, startedAt := now, endedAt := none }] := by
        simp [createLiveStream, hdup]
      rw [h2, List.countP_append]
      by_cases hw : videoId = w
      · have hzero : db.countP (fun s => s.videoId == w) = 0 := by
          rw [List.countP_eq_zero]
          intro s hs
          simp [hw ▸ hnone s hs]
        simp [hzero, List.countP_cons, hw]
      · have hone : List.countP (fun s : LiveStream => s.videoId == w)
              [{ id := newId, channelId := chan, videoId := videoId, title := title,
                 status := .live, startedAt := now, endedAt := none }] = 0 := by
          simp [List.countP_cons, hw]
        omega

/-- Witness for C1: re-observing video id `v1` returns the existing row and
leaves the table unchanged; the uniqueness bound is preserved. -/
theorem broadcast_creation_idempotent_witness :
    (createLiveStream 10 [⟨1, 1, "v1", "t", .live, 0, none⟩] 1 2 "v1" "t again").2 =
      [⟨1, 1, "v1", "t", .live, 0, none⟩] ∧
    (createLiveStream 10 [⟨1, 1, "v1", "t", .live, 0, none⟩] 1 2 "v1" "t again").2.countP
      (fun s => s.videoId == "v1") ≤ 1 := by
  have h := broadcast_creation_idempotent 10 [⟨1, 1, "v1", "t", .live, 0, none⟩] 1 2 "v1" "t again"
  exact ⟨(h.1 ⟨⟨1, 1, "v1", "t", .live, 0, none⟩, by simp, rfl⟩).1,
    h.2 "v1" (by decide)⟩

/-- Helper: two titles with the same non-empty normalised word set have
similarity 1. -/
theorem calculateTitleSimilarity_eq_one_of_eq (t1 t2 : String)
    (heq : wordFinset t1 = wordFinset t2) (hne : wordFinset t1 ≠ ∅) :
    calculateTitleSimilarity t1 t2 = 1 := by
  have hne2 : wordFinset t2 ≠ ∅ := heq ▸ hne
  simp only [calculateTitleSimilarity, heq]
  rw [if_neg (by tauto), if_neg (by tauto),
    if_pos (by simp [Finset.nonempty_iff_ne_empty, hne2])]
  rw [Finset.inter_self, Finset.union_self, div_self]
  have : (wordFinset t2).Nonempty := Finset.nonempty_iff_ne_empty.mpr hne2
  simpa using Finset.card_ne_zero_of_mem this.choose_spec

/-- Helper: if no stream in the table carries the observed video id, the
exact-match lookup fails. -/
theorem checkExact_eq_none (db : List LiveStream) (videoId : String)
    (h : ∀ e ∈ db, e.videoId ≠ videoId) :
    checkExactVideoIdMatch db videoId = none := by
  unfold checkExactVideoIdMatch
  rw [List.find?_eq_none]
  intro e he
  simp [h e he]

/-- Claim C3: the duplicate classifier applies its checks in order with first
match winning — (1) an existing Broadcast with the same video id gives kind
`exact` with confidence 1.0; (2) otherwise the first same-channel candidate
started within the last 120 minutes (in query order, not the best-scoring
one) whose Jaccard similarity reaches 0.85 gives kind `similar` with that
similarity as confidence; (3) otherwise, when the title contains a
rebroadcast keyword, the first completed-or-ended same-channel Broadcast of
the last 7 days whose keyword-stripped title reaches similarity 0.7 gives
kind `restream`; (4) otherwise the observation is not a duplicate. -/
theorem duplicate_classifier_order (now : Time) (db : List LiveStream) (chan : Nat)
    (videoId title : String) :
    ((∃ e ∈ db, e.videoId = videoId) →
        ∃ e, checkStreamDuplicate now db chan videoId title =
            ⟨true, some "exact", some e, 1⟩ ∧ e ∈ db ∧ e.videoId = videoId) ∧
    (∀ (pre post : List LiveStream) (s : LiveStream),
        (∀ e ∈ db, e.videoId ≠ videoId) →
        titleWindowCandidates now db chan = pre ++ s :: post →
        (∀ c ∈ pre, calculateTitleSimilarity title c.title < titleSimilarityThreshold) →
        titleSimilarityThreshold ≤ calculateTitleSimilarity title s.title →
        checkStreamDuplicate now db chan videoId title =
          ⟨true, some "similar", some s, calculateTitleSimilarity title s.title⟩) ∧
    (∀ (pre post : List LiveStream) (s : LiveStream),
        (∀ e ∈ db, e.videoId ≠ videoId) →
        (∀ c ∈ titleWindowCandidates now db chan,
            calculateTitleSimilarity title c.title < titleSimilarityThreshold) →
        hasRestreamKeyword title = true →
        restreamCandidates now db chan = pre ++ s :: post →
        (∀ c ∈ pre, calculateTitleSimilarity (cleanRestreamTitle title)
            (cleanRestreamTitle c.title) < restreamSimilarityThreshold) →
        restreamSimilarityThreshold ≤ calculateTitleSimilarity (cleanRestreamTitle title)
            (cleanRestreamTitle s.title) →
        checkStreamDuplicate now db chan videoId title =
          ⟨true, some "restream", some s,
            calculateTitleSimilarity (cleanRestreamTitle title) (cleanRestreamTitle s.title)⟩) ∧
    ((∀ e ∈ db, e.videoId ≠ videoId) →
        (∀ c ∈ titleWindowCandidates now db chan,
            calculateTitleSimilarity title c.title < titleSimilarityThreshold) →
        (hasRestreamKeyword title = false ∨
          ∀ c ∈ restreamCandidates now db chan,
            calculateTitleSimilarity (cleanRestreamTitle title)
              (cleanRestreamTitle c.title) < restreamSimilarityThreshold) →
        checkStreamDuplicate now db chan videoId title = noDup) := by
  refine ⟨?_, ?_, ?_, ?_⟩
  · rintro ⟨e, he, hev⟩
    have hsome : (db.find? (fun s => s.videoId == videoId)).isSome :=
      List.find?_isSome.mpr ⟨e, he, by simp [hev]⟩
    obtain ⟨e1, he1⟩ := Option.isSome_iff_exists.mp hsome
    refine ⟨e1, ?_, List.mem_of_find?_eq_some he1, by simpa using List.find?_some he1⟩
    simp [checkStreamDuplicate, checkExactVideoIdMatch, he1]
  · intro pre post s hne hcand hpre hs
    have hex := checkExact_eq_none db videoId hne
    have happ := findFirstScored_append (fun c => calculateTitleSimilarity title c.title)
      titleSimilarityThreshold pre post s hpre hs
    simp [checkStreamDuplicate, hex, checkTitleDuplicate, findFirstSimilar, hcand, happ]
  · intro pre post s hne hwin hkw hcand hpre hs
    have hex := checkExact_eq_none db videoId hne
    have hnosim : findFirstSimilar title (titleWindowCandidates now db chan) = none :=
      findFirstScored_none _ _ _ hwin
    have happ := findFirstScored_append
      (fun c => calculateTitleSimilarity (cleanRestreamTitle title) (cleanRestreamTitle c.title))
      restreamSimilarityThreshold pre post s hpre hs
    simp [checkStreamDuplicate, hex, checkTitleDuplicate, hnosim,
      checkRestreamPattern, hkw, findFirstRestream, hcand, happ]
  · intro hne hwin hrest
    have hex := checkExact_eq_none db videoId hne
    have hnosim : findFirstSimilar title (titleWindowCandidates now db chan) = none :=
      findFirstScored_none _ _ _ hwin
    have hnorest : checkRestreamPattern now db chan title = none := by
      cases hrest with
      | inl hkw => simp [checkRestreamPattern, hkw]
      | inr hbelow =>
        have := findFirstScored_none
          (fun c => calculateTitleSimilarity (cleanRestreamTitle title)
            (cleanRestreamTitle c.title))
          restreamSimilarityThreshold _ hbelow
        simp [checkRestreamPattern, findFirstRestream, this]
    simp [checkStreamDuplicate, hex, checkTitleDuplicate, hnosim, hnorest]

/-- Witness for C3: a second observation of video id `v1` is an exact
duplicate; a keyword-marked rebroadcast of a completed Broadcast from two
days earlier is classified `restream` against it. -/
theorem duplicate_classifier_order_witness :
    (∃ e, checkStreamDuplicate 172800 [⟨1, 1, "v1", "Morning Show", .completed, 0, none⟩]
        1 "v1" "Morning Show" = ⟨true, some "exact", some e, 1⟩ ∧
        e ∈ [⟨1, 1, "v1", "Morning Show", .completed, 0, none⟩] ∧ e.videoId = "v1") ∧
    checkStreamDuplicate 172800 [⟨1, 1, "v1", "Morning Show", .completed, 0, none⟩]
        1 "v2" "Morning Show 재방송" =
      ⟨true, some "restream", some ⟨1, 1, "v1", "Morning Show", .completed, 0, none⟩,
        calculateTitleSimilarity (cleanRestreamTitle "Morning Show 재방송")
          (cleanRestreamTitle "Morning Show")⟩ := by
  have h1 := (duplicate_classifier_order 172800
    [⟨1, 1, "v1", "Morning Show", .completed, 0, none⟩] 1 "v1" "Morning Show").1
    ⟨⟨1, 1, "v1", "Morning Show", .completed, 0, none⟩, by simp, rfl⟩
  have hsim : calculateTitleSimilarity (cleanRestreamTitle "Morning Show 재방송")
      (cleanRestreamTitle "Morning Show") = 1 :=
    calculateTitleSimilarity_eq_one_of_eq _ _ (by decide) (by decide)
  have h2 := (duplicate_classifier_order 172800
    [⟨1, 1, "v1", "Morning Show", .completed, 0, none⟩] 1 "v2" "Morning Show 재방송").2.2.1
    [] [] ⟨1, 1, "v1", "Morning Show", .completed, 0, none⟩
    (by decide) (by decide) (by decide) (by decide) (by decide)
    (by rw [hsim]; norm_num [restreamSimilarityThreshold])
  exact ⟨h1, h2⟩

/-- Claim C2 counterexample: the reconciliation sweep `fix_stuck_streams`
sends a `downloading` Broadcast with no active and no completed jobs back to
`ended`, so the reachable status history `live, ended, downloading, ended` is
not a subsequence of `live, ended, downloading, completed` nor of
`live, ended, downloading, failed`. -/
theorem status_subsequence_counterexample :
    StatusTrace [.live, .ended, .downloading, .ended] ∧
    ¬ List.Sublist [StreamStatus.live, .ended, .downloading, .ended]
        [StreamStatus.live, .ended, .downloading, .completed] ∧
    ¬ List.Sublist [StreamStatus.live, .ended, .downloading, .ended]
        [StreamStatus.live, .ended, .downloading, .failed] := by
  refine ⟨?_, by decide, by decide⟩
  have h1 : StatusTrace [.live] := .init
  have h2 : StatusTrace ([StreamStatus.live] ++ [.ended]) := .snoc h1 .pollEnd rfl
  have h3 : StatusTrace ([StreamStatus.live, .ended] ++ [.downloading]) :=
    .snoc h2 .orchestrate rfl
  have h4 : StatusTrace ([StreamStatus.live, .ended, .downloading] ++ [.ended]) :=
    .snoc h3 .reconcileEnd rfl
  simpa using h4

/-- Claim C2 (amended): every status history of a Broadcast under the
monitoring-core operations starts at `live` and never returns to `live`
afterwards — the subsequence property of the original claim fails only in
that reconciliation may send `downloading` back to `ended`. -/
theorem status_never_revisits_live :
    (∀ s s' : StreamStatus, StreamStep s s' → s' ≠ .live) ∧
    (∀ l : List StreamStatus, StatusTrace l → ∃ t, l = .live :: t ∧ .live ∉ t) := by
  have hstep : ∀ s s' : StreamStatus, StreamStep s s' → s' ≠ .live := by
    intro s s' h
    cases h <;> simp
  refine ⟨hstep, ?_⟩
  intro l h
  induction h with
  | init => exact ⟨[], rfl, by simp⟩
  | snoc htr hs hlast ih =>
    obtain ⟨t, rfl, hnot⟩ := ih
    rename_i a b
    refine ⟨t ++ [b], by simp, ?_⟩
    simp only [List.mem_append, List.mem_singleton]
    rintro (h | h)
    · exact hnot h
    · exact hstep a b hs h.symm

/-- Witness for C2 (amended) on the counterexample trace: `live` appears only
as the initial status. -/
theorem status_never_revisits_live_witness :
    ∃ t, [StreamStatus.live, .ended, .downloading, .ended] = .live :: t ∧ .live ∉ t := by
  have h1 : StatusTrace [.live] := .init
  have h2 : StatusTrace ([StreamStatus.live] ++ [.ended]) := .snoc h1 .pollEnd rfl
  have h3 : StatusTrace ([StreamStatus.live, .ended] ++ [.downloading]) :=
    .snoc h2 .orchestrate rfl
  have h4 : StatusTrace ([StreamStatus.live, .ended, .downloading] ++ [.ended]) :=
    .snoc h3 .reconcileEnd rfl
  exact status_never_revisits_live.2 _ (by simpa using h4)

/-- Helper: `find?` returns the unique element satisfying the predicate. -/
theorem find?_eq_some_of_unique {α : Type} (p : α → Bool) (l : List α) (a : α)
    (ha : a ∈ l) (hpa : p a = true) (huniq : ∀ b ∈ l, p b = true → b = a) :
    l.find? p = some a := by
  have hsome : (l.find? p).isSome := List.find?_isSome.mpr ⟨a, ha, hpa⟩
  obtain ⟨b, hb⟩ := Option.isSome_iff_exists.mp hsome
  have hba := huniq b (List.mem_of_find?_eq_some hb) (List.find?_some hb)
  rw [hb, hba]

/-- Claim C7: for a Broadcast with one low-tier and one high-tier job, the
pending-queue processor dispatches the high-tier job exactly when it is still
pending and the low-tier job is in a terminal state (`completed` or `failed`
— failure counts, not only completion); in particular the high-tier job is
never dispatched while the low-tier job is `pending` or `downloading`.  The
post-completion chain inside the job executor fires only for a finished
low-tier job, never for a high-tier one. -/
theorem high_tier_dispatch_sequencing (downloads : List Download) (h l : Download)
    (hh : h ∈ downloads) (hl : l ∈ downloads) (hsame : l.streamId = h.streamId)
    (hq : h.quality = "high") (lq : l.quality = "low")
    (huniqLow : ∀ d ∈ downloads, d.streamId = h.streamId → d.quality = "low" → d = l)
    (hids : (downloads.map (fun d => d.id)).Nodup) :
    (h.id ∈ processPendingDownloads downloads ↔
      h.status = .pending ∧ (l.status = .completed ∨ l.status = .failed)) ∧
    (∀ d : Download, d.quality = "high" → completionChainTarget downloads d = none) := by
  have hfind : downloads.find?
      (fun d => d.streamId == h.streamId && d.quality == "low") = some l := by
    refine find?_eq_some_of_unique _ _ _ hl (by simp [hsame, lq]) ?_
    intro b hb hpb
    simp only [Bool.and_eq_true, beq_iff_eq] at hpb
    exact huniqLow b hb hpb.1 hpb.2
  have hdec : pendingDispatchDecision downloads h =
      (l.status == DownloadStatus.completed || l.status == DownloadStatus.failed) := by
    unfold pendingDispatchDecision
    rw [hq]
    simp [hfind]
  constructor
  · constructor
    · intro hmem
      obtain ⟨d, hd, hdid⟩ := List.mem_map.mp hmem
      have hd2 := List.mem_filter.mp hd
      have hd3 := List.mem_filter.mp hd2.1
      have hdh : d = h :=
        List.inj_on_of_nodup_map hids (List.mem_filter.mp hd2.1).1 hh hdid
      subst hdh
      refine ⟨by simpa using hd3.2, ?_⟩
      have := hd2.2
      rw [hdec] at this
      simpa using this
    · rintro ⟨hpend, hterm⟩
      refine List.mem_map.mpr ⟨h, ?_, rfl⟩
      refine List.mem_filter.mpr ⟨List.mem_filter.mpr ⟨hh, by simp [hpend]⟩, ?_⟩
      rw [hdec]
      rcases hterm with ht | ht <;> simp [ht]
  · intro d hd
    simp [completionChainTarget, hd]

/-- Witness for C7: with a failed low-tier job and a pending high-tier job of
the same Broadcast, the pending-queue processor dispatches the high-tier job. -/
theorem high_tier_dispatch_sequencing_witness :
    2 ∈ processPendingDownloads
      [⟨1, 5, "low", .failed, some "boom"⟩, ⟨2, 5, "high", .pending, none⟩] ∧
    completionChainTarget
      [⟨1, 5, "low", .failed, some "boom"⟩, ⟨2, 5, "high", .pending, none⟩]
      ⟨2, 5, "high", .pending, none⟩ = none := by
  have h := high_tier_dispatch_sequencing
    [⟨1, 5, "low", .failed, some "boom"⟩, ⟨2, 5, "high", .pending, none⟩]
    ⟨2, 5, "high", .pending, none⟩ ⟨1, 5, "low", .failed, some "boom"⟩
    (by simp) (by simp) rfl rfl rfl (by decide) (by decide)
  exact ⟨h.1.mpr ⟨rfl, Or.inr rfl⟩, h.2 ⟨2, 5, "high", .pending, none⟩ rfl⟩

end Streamly
